import Mathlib

/-!
Verification of the settle repository core against its specification.

The development shallowly embeds three source units:
* `authentication` — the per-request authentication gate
  (api/lib/authentication/middleware.go);
* `endpoint` — the user retrieval / provisioning saga endpoint
  (register RetrieveUser.Execute);
* `model` — the SQL scan/value codecs for Amount and OfStatus.

External collaborators (challenge codec, signature verifier, the stores)
are represented by result oracles carried in an environment record, so the
theorems quantify over every outcome those collaborators can produce.
-/

namespace authentication

/-- AutStatus mirrors the Go string enumeration of authentication outcomes. -/
inductive AutStatus
  | succeeded
  | skipped
  | failed
deriving DecidableEq, Repr

/-- Status mirrors the Go struct carrying the outcome and resolved address. -/
structure Status where
  status : AutStatus
  address : String
deriving DecidableEq, Repr

/-- Context values: either the stored authentication Status or some other
value kept under a different key (modelling the untyped context store). -/
inductive CtxVal
  | status (s : Status)
  | other
deriving DecidableEq, Repr

/-- A request context is an association list from string keys to values,
modelling context.Context value storage with newest binding first. -/
def Ctx : Type := List (String × CtxVal)

/-- The context key used to store the authentication status. -/
def statusKey : String := "authentication.status"

/-- Lookup of a key in a context, modelling ctx.Value. -/
def ctxValue (ctx : Ctx) (k : String) : Option CtxVal :=
  (List.find? (fun p => p.1 == k) ctx).map Prod.snd

/-- With stores the authentication information in a new context. -/
def With (ctx : Ctx) (s : Status) : Ctx :=
  (statusKey, CtxVal.status s) :: ctx

/-- Get retrieves the authentication information from the context.  The Go
code performs an unchecked type assertion, which crashes the request when
the key is absent or holds a value of another type; the crash is modelled
by the `none` result, a present Status by `some`. -/
def Get (ctx : Ctx) : Option Status :=
  match ctxValue ctx statusKey with
  | some (CtxVal.status s) => some s
  | _ => none

/-- A skip rule: an HTTP method plus a path predicate standing for the
compiled regular expression of the rule. -/
structure SkipRule where
  method : String
  pattern : String → Bool

/-- Decides the anchored regular expression `/users/[a-zA-Z0-9_]+` over the
whole path: a `/users/` head followed by a nonempty run of word characters. -/
def matchUsersPath (p : String) : Bool :=
  p.startsWith "/users/" &&
    (let rest := p.drop 7
     !rest.isEmpty && rest.all (fun c => c.isAlpha || c.isDigit || c == '_'))

/-- SkipList is the list of endpoints that do not require authentication. -/
def SkipList : List SkipRule :=
  [ ⟨"GET", fun p => p == "/challenges"⟩,
    ⟨"GET", matchUsersPath⟩ ]

/-- The skip computation performed by the request loop over SkipList. -/
def computeSkip (method path : String) : Bool :=
  SkipList.any (fun s => s.method == method && s.pattern path)

/-- The parts of the inbound HTTP request read by the gate: method, escaped
URL path, basic-auth address and signature, and the challenge header. -/
structure Request where
  method : String
  path : String
  address : String
  signature : String
  challenge : String
deriving DecidableEq, Repr

/-- A persisted authentication record (the replay ledger row). -/
structure AuthRecord where
  method : String
  url : String
  challenge : String
  address : String
  signature : String
deriving DecidableEq, Repr

/-- Outcomes of the external collaborators consulted by the gate, for one
given request: the challenge check, the signature verification, the replay
ledger lookup and the record insertion.  Errors are carried as strings. -/
structure GateEnv where
  checkChallenge : Option String
  verifyChallenge : Option String
  loadAuth : Except String (Option AuthRecord)
  createAuth : Except String AuthRecord

/-- Errors the gate can respond with: a traced collaborator error, or the
user error built for a reused challenge (HTTP 400, challenge_already_used). -/
inductive GateErr
  | traced (e : String)
  | challengeAlreadyUsed
deriving DecidableEq, Repr

/-- Observable outcome of one run of the gate: the final status attached to
the context, whether the downstream handler ran, and the error responded. -/
structure GateResult where
  status : Status
  handlerInvoked : Bool
  respondedError : Option GateErr
deriving DecidableEq, Repr

/-- The failedAuth closure: fall back to the skip list, invoking the
downstream handler with a Skipped status, or respond with the error under a
Failed status. -/
def failedAuth (skip : Bool) (e : GateErr) : GateResult :=
  if skip then
    { status := ⟨AutStatus.skipped, ""⟩, handlerInvoked := true,
      respondedError := none }
  else
    { status := ⟨AutStatus.failed, ""⟩, handlerInvoked := false,
      respondedError := some e }

/-- ServeHTTPC: check the challenge, verify its signature, reject a reused
challenge, insert the replay record, and on success invoke the downstream
handler under a Succeeded status carrying the claimed address. -/
def serveHTTPC (env : GateEnv) (r : Request) : GateResult :=
  let skip := computeSkip r.method r.path
  match env.checkChallenge with
  | some e => failedAuth skip (GateErr.traced e)
  | none =>
    match env.verifyChallenge with
    | some e => failedAuth skip (GateErr.traced e)
    | none =>
      match env.loadAuth with
      | Except.error e => failedAuth skip (GateErr.traced e)
      | Except.ok (some _) => failedAuth skip GateErr.challengeAlreadyUsed
      | Except.ok none =>
        match env.createAuth with
        | Except.error e => failedAuth skip (GateErr.traced e)
        | Except.ok _ =>
          { status := ⟨AutStatus.succeeded, r.address⟩,
            handlerInvoked := true, respondedError := none }

end authentication

namespace endpoint

/-- Register-side user verification status. -/
inductive UsrStatus
  | unverified
  | verified
deriving DecidableEq, Repr

/-- Register-side user row. -/
structure RegUser where
  token : String
  username : String
  secret : String
  password : String
  status : UsrStatus
  mintToken : Option String
deriving DecidableEq, Repr

/-- Mint-side user row. -/
structure MintUser where
  token : String
  username : String
  password : String
deriving DecidableEq, Repr

/-- Outcomes of the store operations invoked by RetrieveUser.Execute, plus
the externally supplied values: the token minted for a newly created mint
user and the mint identity used in the credentials payload.  A `true`
failure flag makes the corresponding store call return an error. -/
structure SagaEnv where
  loadRegFails : Bool
  saveRegFails : Bool
  loadMintFails : Bool
  updatePasswordFails : Bool
  saveMintFails : Bool
  createMintFails : Bool
  freshMintToken : String
  mintIdentity : String
deriving DecidableEq, Repr

/-- The one-time credentials payload returned to the caller. -/
structure Creds where
  address : String
  password : String
deriving DecidableEq, Repr

/-- The response body: the user representation and the credentials. -/
structure Resp where
  user : RegUser
  credentials : Creds
deriving DecidableEq, Repr

/-- Errors surfaced by the endpoint: an internal store error (traced, 500)
or a structured user error with HTTP status and machine code. -/
inductive ExecErr
  | storeError
  | userError (httpStatus : Nat) (code : String)
deriving DecidableEq, Repr

/-- Observable outcome of one run of RetrieveUser.Execute: HTTP status and
body on success, error otherwise, whether the process was fatally halted,
which mutating store calls ran, which transactions committed, and the
committed contents of both stores (early returns roll both back). -/
structure ExecResult where
  httpStatus : Option Nat
  resp : Option Resp
  err : Option ExecErr
  fatal : Bool
  savedRegUser : Bool
  createdMintUser : Bool
  updatedMintPassword : Bool
  mintCommitted : Bool
  regCommitted : Bool
  finalReg : List RegUser
  finalMint : List MintUser
deriving DecidableEq, Repr

/-- LoadUserByUsername on the register store. -/
def findReg (store : List RegUser) (username : String) : Option RegUser :=
  List.find? (fun v => v.username == username) store

/-- LoadUserByUsername on the mint store. -/
def findMint (store : List MintUser) (username : String) : Option MintUser :=
  List.find? (fun v => v.username == username) store

/-- Save on the register store: replace the row with the same token. -/
def saveReg (store : List RegUser) (u : RegUser) : List RegUser :=
  store.map (fun v => if v.token == u.token then u else v)

/-- Save on the mint store: replace the row with the same token. -/
def saveMint (store : List MintUser) (u : MintUser) : List MintUser :=
  store.map (fun v => if v.token == u.token then u else v)

/-- The 201 response body: user representation plus credentials whose
address is username at the mint identity and whose password is the stored
register-side password. -/
def mkResp (env : SagaEnv) (user : RegUser) : Resp :=
  { user := user,
    credentials :=
      { address := user.username ++ "@" ++ env.mintIdentity,
        password := user.password } }

/-- Result of an early return on a store error: both transactions roll
back, no response, no commit. -/
def storeFail (regStore : List RegUser) (mintStore : List MintUser)
    (savedReg updatedMint : Bool) : ExecResult :=
  { httpStatus := none, resp := none, err := some ExecErr.storeError,
    fatal := false, savedRegUser := savedReg, createdMintUser := false,
    updatedMintPassword := updatedMint, mintCommitted := false,
    regCommitted := false, finalReg := regStore, finalMint := mintStore }

/-- Result of the user_not_found early return (HTTP 400): rollback, no
mutating call was made. -/
def notFound (regStore : List RegUser) (mintStore : List MintUser) :
    ExecResult :=
  { httpStatus := none, resp := none,
    err := some (ExecErr.userError 400 "user_not_found"), fatal := false,
    savedRegUser := false, createdMintUser := false,
    updatedMintPassword := false, mintCommitted := false,
    regCommitted := false, finalReg := regStore, finalMint := mintStore }

/-- Tail of the mint block: write the mint token onto the register user,
save it in the register transaction, then commit mint followed by
register.  A failing register save rolls both transactions back. -/
def finishMint (env : SagaEnv) (origReg regStaged : List RegUser)
    (origMint mintStaged : List MintUser) (user : RegUser) (tok : String)
    (savedReg1 createdMint updatedMint : Bool) : ExecResult :=
  if env.saveRegFails then
    { httpStatus := none, resp := none, err := some ExecErr.storeError,
      fatal := false, savedRegUser := savedReg1,
      createdMintUser := createdMint, updatedMintPassword := updatedMint,
      mintCommitted := false, regCommitted := false,
      finalReg := origReg, finalMint := origMint }
  else
    { httpStatus := some 201,
      resp := some (mkResp env { user with mintToken := some tok }),
      err := none, fatal := false, savedRegUser := true,
      createdMintUser := createdMint, updatedMintPassword := updatedMint,
      mintCommitted := true, regCommitted := true,
      finalReg := saveReg regStaged { user with mintToken := some tok },
      finalMint := mintStaged }

/-- The mint block of the saga.  With a mint token already present the
block is skipped and the register transaction commits directly.  Otherwise
a mint transaction opens: an existing mint user is reconciled by updating
its password, an absent one is created — where a creation failure halts
the process fatally instead of returning an error. -/
def mintPhase (env : SagaEnv) (origReg regStaged : List RegUser)
    (origMint : List MintUser) (user : RegUser) (savedReg1 : Bool) :
    ExecResult :=
  match user.mintToken with
  | some _ =>
    { httpStatus := some 201, resp := some (mkResp env user), err := none,
      fatal := false, savedRegUser := savedReg1, createdMintUser := false,
      updatedMintPassword := false, mintCommitted := false,
      regCommitted := true, finalReg := regStaged, finalMint := origMint }
  | none =>
    if env.loadMintFails then storeFail origReg origMint savedReg1 false
    else
      match findMint origMint user.username with
      | some u =>
        if env.updatePasswordFails then
          storeFail origReg origMint savedReg1 false
        else if env.saveMintFails then
          storeFail origReg origMint savedReg1 true
        else
          finishMint env origReg regStaged origMint
            (saveMint origMint { u with password := user.password })
            user u.token savedReg1 false true
      | none =>
        if env.createMintFails then
          { httpStatus := none, resp := none, err := none, fatal := true,
            savedRegUser := savedReg1, createdMintUser := false,
            updatedMintPassword := false, mintCommitted := false,
            regCommitted := false, finalReg := origReg,
            finalMint := origMint }
        else
          finishMint env origReg regStaged origMint
            (⟨env.freshMintToken, user.username, user.password⟩ :: origMint)
            user env.freshMintToken savedReg1 true false

/-- RetrieveUser.Execute: load the register user by username, reject a
missing user or a mismatched secret with user_not_found, transition the
status to Verified persisting the change, then run the mint block. -/
def execute (env : SagaEnv) (regStore : List RegUser)
    (mintStore : List MintUser) (username secret : String) : ExecResult :=
  if env.loadRegFails then storeFail regStore mintStore false false
  else
    match findReg regStore username with
    | none => notFound regStore mintStore
    | some user =>
      if user.secret = secret then
        if user.status = UsrStatus.verified then
          mintPhase env regStore regStore mintStore user false
        else if env.saveRegFails then storeFail regStore mintStore false false
        else
          mintPhase env regStore
            (saveReg regStore { user with status := UsrStatus.verified })
            mintStore { user with status := UsrStatus.verified } true
      else notFound regStore mintStore

end endpoint

namespace model

/-- The character printed for one decimal digit. -/
def digitChar (d : Nat) : Char := Char.ofNat (48 + d)

/-- The numeric value of one decimal digit character, if it is one. -/
def charDigit (c : Char) : Option Nat :=
  if 48 ≤ c.toNat ∧ c.toNat ≤ 57 then some (c.toNat - 48) else none

/-- Reads a character list as decimal digits, most significant first,
failing on any non-digit character. -/
def charsToDigits : List Char → Option (List Nat)
  | [] => some []
  | c :: cs =>
    match charDigit c, charsToDigits cs with
    | some d, some ds => some (d :: ds)
    | _, _ => none

/-- Parses a nonempty run of decimal digits into a natural number. -/
def parseDecimal (l : List Char) : Option Nat :=
  if l.isEmpty then none
  else (charsToDigits l).map (fun ds => Nat.ofDigits 10 ds.reverse)

/-- The decimal digit characters of a natural number, most significant
first, with a single zero digit for zero. -/
def natStrData (n : Nat) : List Char :=
  if n = 0 then ['0'] else ((Nat.digits 10 n).reverse).map digitChar

/-- The base-10 string form of an arbitrary-precision integer, as produced
by the String method of the Go big.Int type backing Amount. -/
def bigIntString (n : Int) : String :=
  if n < 0 then String.mk ('-' :: natStrData n.natAbs)
  else String.mk (natStrData n.natAbs)

/-- Parses an optional sign followed by a nonempty digit run, with nothing
else accepted. -/
def signedParse : List Char → Option Int
  | [] => none
  | c :: cs =>
    if c = '-' then (parseDecimal cs).map (fun n => -(n : Int))
    else if c = '+' then (parseDecimal cs).map (fun n => (n : Int))
    else (parseDecimal (c :: cs)).map (fun n => (n : Int))

/-- Base-10 parsing of an arbitrary-precision integer, as performed by the
SetString method with base 10. -/
def bigIntSetString (s : String) : Option Int :=
  signedParse s.data

/-- The dynamically typed source value handed to a sql.Scanner. -/
inductive SqlSrc
  | int64 (i : Int)
  | bytes (l : List Char)
  | str (s : String)
  | other
deriving DecidableEq

/-- Amount.Scan: an int64 is taken as is, bytes and strings are parsed as
base-10 decimals, any other source type is an error (`none`). -/
def amountScan (src : SqlSrc) : Option Int :=
  match src with
  | SqlSrc.int64 i => some i
  | SqlSrc.bytes l => bigIntSetString (String.mk l)
  | SqlSrc.str s => bigIntSetString s
  | SqlSrc.other => none

/-- Amount.Value: serialize to the base-10 decimal string. -/
def amountValue (b : Int) : String := bigIntString b

/-- OfStatus.Value: the literal string form. -/
def ofStatusValue (s : String) : String := s

/-- OfStatus.Scan: bytes and strings are accepted verbatim with no check
against the enumeration, any other source type is an error (`none`). -/
def ofStatusScan (src : SqlSrc) : Option String :=
  match src with
  | SqlSrc.bytes l => some (String.mk l)
  | SqlSrc.str s => some s
  | _ => none

end model

namespace authentication

theorem failedAuth_address (skip : Bool) (e : GateErr) :
    (failedAuth skip e).status.address = "" := by
  unfold failedAuth
  split <;> rfl

theorem serveHTTPC_check_err (env : GateEnv) (r : Request) (e : String)
    (h : env.checkChallenge = some e) :
    serveHTTPC env r =
      failedAuth (computeSkip r.method r.path) (GateErr.traced e) := by
  simp [serveHTTPC, h]

theorem serveHTTPC_verify_err (env : GateEnv) (r : Request) (e : String)
    (hc : env.checkChallenge = none) (hv : env.verifyChallenge = some e) :
    serveHTTPC env r =
      failedAuth (computeSkip r.method r.path) (GateErr.traced e) := by
  simp [serveHTTPC, hc, hv]

theorem serveHTTPC_replay (env : GateEnv) (r : Request) (rec : AuthRecord)
    (hc : env.checkChallenge = none) (hv : env.verifyChallenge = none)
    (hl : env.loadAuth = Except.ok (some rec)) :
    serveHTTPC env r =
      failedAuth (computeSkip r.method r.path) GateErr.challengeAlreadyUsed := by
  simp [serveHTTPC, hc, hv, hl]

theorem serveHTTPC_success (env : GateEnv) (r : Request) (rec : AuthRecord)
    (hc : env.checkChallenge = none) (hv : env.verifyChallenge = none)
    (hl : env.loadAuth = Except.ok none) (hcr : env.createAuth = Except.ok rec) :
    serveHTTPC env r =
      { status := ⟨AutStatus.succeeded, r.address⟩, handlerInvoked := true,
        respondedError := none } := by
  simp [serveHTTPC, hc, hv, hl, hcr]

theorem serveHTTPC_status_cases (env : GateEnv) (r : Request) :
    (serveHTTPC env r).status.status = AutStatus.succeeded ∨
    (serveHTTPC env r).status.address = "" := by
  obtain ⟨c, v, l, cr⟩ := env
  unfold serveHTTPC
  rcases c with _ | e
  · rcases v with _ | e
    · rcases l with e | ol
      · right; exact failedAuth_address _ _
      · rcases ol with _ | rec
        · rcases cr with e | rec
          · right; exact failedAuth_address _ _
          · left; rfl
        · right; exact failedAuth_address _ _
    · right; exact failedAuth_address _ _
  · right; exact failedAuth_address _ _

/-- Claim C2: on a request matching the skip list, a challenge validation
failure or a signature verification failure yields status Skipped with an
empty address and the downstream handler still runs; on a request matching
no rule the same failures yield status Failed with an error response and
the downstream handler does not run. -/
theorem skiplist_failure_branching (env : GateEnv) (r : Request) (e : String)
    (h : env.checkChallenge = some e ∨
      (env.checkChallenge = none ∧ env.verifyChallenge = some e)) :
    (computeSkip r.method r.path = true →
      serveHTTPC env r =
        { status := ⟨AutStatus.skipped, ""⟩, handlerInvoked := true,
          respondedError := none }) ∧
    (computeSkip r.method r.path = false →
      serveHTTPC env r =
        { status := ⟨AutStatus.failed, ""⟩, handlerInvoked := false,
          respondedError := some (GateErr.traced e) }) := by
  have hred : serveHTTPC env r =
      failedAuth (computeSkip r.method r.path) (GateErr.traced e) := by
    rcases h with h | ⟨h1, h2⟩
    · exact serveHTTPC_check_err env r e h
    · exact serveHTTPC_verify_err env r e h1 h2
  constructor <;> intro hs <;> rw [hred] <;> simp [failedAuth, hs]

/-- Witness for C2 at a concrete skip-listed request with a failing
challenge check. -/
theorem skiplist_failure_branching_witness :
    (computeSkip "GET" "/challenges" = true →
      serveHTTPC ⟨some "malformed", none, Except.ok none,
          Except.error "unused"⟩
          ⟨"GET", "/challenges", "addr", "sig", "chal"⟩ =
        { status := ⟨AutStatus.skipped, ""⟩, handlerInvoked := true,
          respondedError := none }) ∧
    (computeSkip "GET" "/challenges" = false →
      serveHTTPC ⟨some "malformed", none, Except.ok none,
          Except.error "unused"⟩
          ⟨"GET", "/challenges", "addr", "sig", "chal"⟩ =
        { status := ⟨AutStatus.failed, ""⟩, handlerInvoked := false,
          respondedError := some (GateErr.traced "malformed") }) :=
  skiplist_failure_branching
    ⟨some "malformed", none, Except.ok none, Except.error "unused"⟩
    ⟨"GET", "/challenges", "addr", "sig", "chal"⟩ "malformed" (Or.inl rfl)

/-- Claim C1 counterexample: a request on the skip-listed route GET
/challenges whose challenge is already recorded in the replay ledger ends
with status Skipped, not Failed — the reuse outcome is downgraded by the
skip list, contradicting the claim. -/
theorem replay_never_skipped_counterexample :
    ¬ ((serveHTTPC
        ⟨none, none,
          Except.ok (some ⟨"GET", "/challenges", "chal", "addr", "sig"⟩),
          Except.ok ⟨"GET", "/challenges", "chal", "addr", "sig"⟩⟩
        ⟨"GET", "/challenges", "addr", "sig", "chal"⟩).status.status =
      AutStatus.failed) := by
  decide

/-- Claim C1 amended: a request whose challenge is already recorded in the
replay ledger terminates with status Failed and the challenge_already_used
error when its method and path match no skip rule; when they match a skip
rule this failure is downgraded to Skipped like the other failures, and
the downstream handler runs. -/
theorem replay_failure_skiplist_behavior (env : GateEnv) (r : Request)
    (rec : AuthRecord)
    (hc : env.checkChallenge = none) (hv : env.verifyChallenge = none)
    (hl : env.loadAuth = Except.ok (some rec)) :
    (computeSkip r.method r.path = false →
      serveHTTPC env r =
        { status := ⟨AutStatus.failed, ""⟩, handlerInvoked := false,
          respondedError := some GateErr.challengeAlreadyUsed }) ∧
    (computeSkip r.method r.path = true →
      serveHTTPC env r =
        { status := ⟨AutStatus.skipped, ""⟩, handlerInvoked := true,
          respondedError := none }) := by
  have hred := serveHTTPC_replay env r rec hc hv hl
  constructor <;> intro hs <;> rw [hred] <;> simp [failedAuth, hs]

/-- Witness for the amended C1 at a concrete non-skip-listed request with
a recorded challenge. -/
theorem replay_failure_skiplist_behavior_witness :
    (computeSkip "POST" "/offers" = false →
      serveHTTPC ⟨none, none,
          Except.ok (some ⟨"POST", "/offers", "chal", "addr", "sig"⟩),
          Except.ok ⟨"POST", "/offers", "chal", "addr", "sig"⟩⟩
          ⟨"POST", "/offers", "addr", "sig", "chal"⟩ =
        { status := ⟨AutStatus.failed, ""⟩, handlerInvoked := false,
          respondedError := some GateErr.challengeAlreadyUsed }) ∧
    (computeSkip "POST" "/offers" = true →
      serveHTTPC ⟨none, none,
          Except.ok (some ⟨"POST", "/offers", "chal", "addr", "sig"⟩),
          Except.ok ⟨"POST", "/offers", "chal", "addr", "sig"⟩⟩
          ⟨"POST", "/offers", "addr", "sig", "chal"⟩ =
        { status := ⟨AutStatus.skipped, ""⟩, handlerInvoked := true,
          respondedError := none }) :=
  replay_failure_skiplist_behavior
    ⟨none, none,
      Except.ok (some ⟨"POST", "/offers", "chal", "addr", "sig"⟩),
      Except.ok ⟨"POST", "/offers", "chal", "addr", "sig"⟩⟩
    ⟨"POST", "/offers", "addr", "sig", "chal"⟩
    ⟨"POST", "/offers", "chal", "addr", "sig"⟩ rfl rfl rfl

/-- Claim C9: when challenge check, signature verification, replay lookup
and record insertion all succeed, the gate attaches Succeeded with the
claimed address and invokes the downstream handler; in any terminal state
other than Succeeded the attached address is empty. -/
theorem success_attaches_address :
    (∀ (env : GateEnv) (r : Request) (rec : AuthRecord),
      env.checkChallenge = none → env.verifyChallenge = none →
      env.loadAuth = Except.ok none → env.createAuth = Except.ok rec →
      serveHTTPC env r =
        { status := ⟨AutStatus.succeeded, r.address⟩, handlerInvoked := true,
          respondedError := none }) ∧
    (∀ (env : GateEnv) (r : Request),
      (serveHTTPC env r).status.status ≠ AutStatus.succeeded →
      (serveHTTPC env r).status.address = "") := by
  constructor
  · intro env r rec hc hv hl hcr
    exact serveHTTPC_success env r rec hc hv hl hcr
  · intro env r h
    rcases serveHTTPC_status_cases env r with h1 | h1
    · exact absurd h1 h
    · exact h1

/-- Witness for C9: a concrete fully successful run attaches the address,
and a concrete failing run attaches the empty address. -/
theorem success_attaches_address_witness :
    serveHTTPC ⟨none, none, Except.ok none,
        Except.ok ⟨"POST", "/offers", "chal", "alice", "sig"⟩⟩
        ⟨"POST", "/offers", "alice", "sig", "chal"⟩ =
      { status := ⟨AutStatus.succeeded, "alice"⟩, handlerInvoked := true,
        respondedError := none } ∧
    (serveHTTPC ⟨some "expired", none, Except.ok none,
        Except.ok ⟨"POST", "/offers", "chal", "alice", "sig"⟩⟩
        ⟨"POST", "/offers", "alice", "sig", "chal"⟩).status.address = "" :=
  ⟨success_attaches_address.1
      ⟨none, none, Except.ok none,
        Except.ok ⟨"POST", "/offers", "chal", "alice", "sig"⟩⟩
      ⟨"POST", "/offers", "alice", "sig", "chal"⟩
      ⟨"POST", "/offers", "chal", "alice", "sig"⟩ rfl rfl rfl rfl,
    success_attaches_address.2
      ⟨some "expired", none, Except.ok none,
        Except.ok ⟨"POST", "/offers", "chal", "alice", "sig"⟩⟩
      ⟨"POST", "/offers", "alice", "sig", "chal"⟩ (by decide)⟩

/-- Claim C8: reading the authentication status from a context in which it
was never stored does not produce a default Status: the unchecked type
assertion crashes, modelled by the `none` result; reading after With does
produce the stored Status. -/
theorem get_fails_without_status :
    (∀ ctx : Ctx, ctxValue ctx statusKey = none → Get ctx = none) ∧
    (∀ (ctx : Ctx) (s : Status), Get (With ctx s) = some s) := by
  constructor
  · intro ctx h
    simp [Get, h]
  · intro ctx s
    simp [Get, With, ctxValue, List.find?]

/-- Witness for C8: the empty context has no stored status and Get crashes
on it; after a With the stored status is returned. -/
theorem get_fails_without_status_witness :
    Get ([] : Ctx) = none ∧
    Get (With ([] : Ctx) ⟨AutStatus.failed, ""⟩) =
      some ⟨AutStatus.failed, ""⟩ :=
  ⟨get_fails_without_status.1 [] rfl,
    get_fails_without_status.2 [] ⟨AutStatus.failed, ""⟩⟩

end authentication

namespace endpoint

theorem findReg_saveReg (store : List RegUser) (uname : String)
    (u w : RegUser) (hfind : findReg store uname = some u)
    (hname : w.username = u.username) (htok : w.token = u.token) :
    findReg (saveReg store w) uname = some w := by
  unfold findReg at hfind
  unfold findReg saveReg
  have hpu : (u.username == uname) = true := by
    simpa using List.find?_some hfind
  have hpw : (w.username == uname) = true := by
    rw [hname]; exact hpu
  have htw : ∀ v : RegUser, v = u → (v.token == w.token) = true := by
    intro v hv
    subst hv
    simp [htok]
  induction store with
  | nil => simp at hfind
  | cons v l ih =>
    rw [List.map_cons]
    by_cases hv : (v.username == uname) = true
    · rw [@List.find?_cons_of_pos RegUser
        (fun v => v.username == uname) v l hv] at hfind
      rw [if_pos (htw v (Option.some.inj hfind))]
      rw [@List.find?_cons_of_pos RegUser (fun v => v.username == uname)
        w _ hpw]
    · rw [@List.find?_cons_of_neg RegUser
        (fun v => v.username == uname) v l hv] at hfind
      by_cases ht : (v.token == w.token) = true
      · rw [if_pos ht]
        rw [@List.find?_cons_of_pos RegUser (fun v => v.username == uname)
          w _ hpw]
      · rw [if_neg ht]
        rw [@List.find?_cons_of_neg RegUser
          (fun v => v.username == uname) v _ hv]
        exact ih hfind

/-- Claim C3: for a user whose saga has fully completed (status Verified
and a mint token present), retrieval with the correct secret skips the
mint block entirely: no mint user is created, no mint transaction opens,
both stores are left exactly as they were, and the register-side mint
token is returned unchanged in the response. -/
theorem retrieve_idempotent_when_completed (env : SagaEnv)
    (regStore : List RegUser) (mintStore : List MintUser)
    (username secret t : String) (u : RegUser)
    (h1 : env.loadRegFails = false)
    (hfind : findReg regStore username = some u)
    (hsec : u.secret = secret)
    (hst : u.status = UsrStatus.verified)
    (hmt : u.mintToken = some t) :
    execute env regStore mintStore username secret =
      { httpStatus := some 201, resp := some (mkResp env u), err := none,
        fatal := false, savedRegUser := false, createdMintUser := false,
        updatedMintPassword := false, mintCommitted := false,
        regCommitted := true, finalReg := regStore,
        finalMint := mintStore } := by
  simp [execute, h1, hfind, hsec, hst, mintPhase, hmt]

/-- Witness for C3 at a concrete fully provisioned user. -/
theorem retrieve_idempotent_when_completed_witness :
    execute ⟨false, false, false, false, false, false, "tk", "mint.test"⟩
        [⟨"t1", "alice", "S1", "pw", UsrStatus.verified, some "mt"⟩] []
        "alice" "S1" =
      { httpStatus := some 201,
        resp := some (mkResp
          ⟨false, false, false, false, false, false, "tk", "mint.test"⟩
          ⟨"t1", "alice", "S1", "pw", UsrStatus.verified, some "mt"⟩),
        err := none, fatal := false, savedRegUser := false,
        createdMintUser := false, updatedMintPassword := false,
        mintCommitted := false, regCommitted := true,
        finalReg := [⟨"t1", "alice", "S1", "pw", UsrStatus.verified,
          some "mt"⟩],
        finalMint := [] } :=
  retrieve_idempotent_when_completed
    ⟨false, false, false, false, false, false, "tk", "mint.test"⟩
    [⟨"t1", "alice", "S1", "pw", UsrStatus.verified, some "mt"⟩] []
    "alice" "S1" "mt"
    ⟨"t1", "alice", "S1", "pw", UsrStatus.verified, some "mt"⟩
    rfl (by decide) rfl rfl rfl

/-- Claim C5: when no register user carries the requested username, or the
stored secret differs from the supplied one, the endpoint returns the
user_not_found error with HTTP status 400, makes no mutating store call,
and commits neither transaction, leaving both stores unchanged. -/
theorem retrieve_wrong_secret_no_mutation (env : SagaEnv)
    (regStore : List RegUser) (mintStore : List MintUser)
    (username secret : String)
    (h1 : env.loadRegFails = false)
    (h : findReg regStore username = none ∨
      ∃ u, findReg regStore username = some u ∧ u.secret ≠ secret) :
    execute env regStore mintStore username secret =
      { httpStatus := none, resp := none,
        err := some (ExecErr.userError 400 "user_not_found"),
        fatal := false, savedRegUser := false, createdMintUser := false,
        updatedMintPassword := false, mintCommitted := false,
        regCommitted := false, finalReg := regStore,
        finalMint := mintStore } := by
  rcases h with h | ⟨u, hfind, hne⟩
  · simp [execute, h1, h, notFound]
  · simp [execute, h1, hfind, hne, notFound]

/-- Witness for C5 at a concrete user retrieved with the wrong secret. -/
theorem retrieve_wrong_secret_no_mutation_witness :
    execute ⟨false, false, false, false, false, false, "tk", "mint.test"⟩
        [⟨"t1", "alice", "S1", "pw", UsrStatus.unverified, none⟩] []
        "alice" "S2" =
      { httpStatus := none, resp := none,
        err := some (ExecErr.userError 400 "user_not_found"),
        fatal := false, savedRegUser := false, createdMintUser := false,
        updatedMintPassword := false, mintCommitted := false,
        regCommitted := false,
        finalReg := [⟨"t1", "alice", "S1", "pw", UsrStatus.unverified,
          none⟩],
        finalMint := [] } :=
  retrieve_wrong_secret_no_mutation
    ⟨false, false, false, false, false, false, "tk", "mint.test"⟩
    [⟨"t1", "alice", "S1", "pw", UsrStatus.unverified, none⟩] []
    "alice" "S2" rfl
    (Or.inr ⟨⟨"t1", "alice", "S1", "pw", UsrStatus.unverified, none⟩,
      by decide, by decide⟩)

/-- Claim C6: when the creation branch of the mint block is reached (no
mint token, no existing mint user) and creating the mint user fails, the
saga halts the process fatally: no error value and no HTTP response is
returned to the caller, neither transaction commits, and both stores are
left unchanged. -/
theorem mint_create_failure_fatal (env : SagaEnv)
    (regStore : List RegUser) (mintStore : List MintUser)
    (username secret : String) (u : RegUser)
    (h1 : env.loadRegFails = false) (h2 : env.saveRegFails = false)
    (h3 : env.loadMintFails = false) (hcreate : env.createMintFails = true)
    (hfind : findReg regStore username = some u) (hsec : u.secret = secret)
    (hmt : u.mintToken = none)
    (hmint : findMint mintStore u.username = none) :
    (execute env regStore mintStore username secret).fatal = true ∧
    (execute env regStore mintStore username secret).err = none ∧
    (execute env regStore mintStore username secret).httpStatus = none ∧
    (execute env regStore mintStore username secret).resp = none ∧
    (execute env regStore mintStore username secret).createdMintUser
      = false ∧
    (execute env regStore mintStore username secret).regCommitted = false ∧
    (execute env regStore mintStore username secret).mintCommitted
      = false ∧
    (execute env regStore mintStore username secret).finalReg = regStore ∧
    (execute env regStore mintStore username secret).finalMint
      = mintStore := by
  by_cases hst : u.status = UsrStatus.verified <;>
    simp [execute, h1, h2, h3, hcreate, hfind, hsec, hst, mintPhase, hmt,
      hmint]

/-- Witness for C6 at a concrete unverified user whose mint user creation
fails. -/
theorem mint_create_failure_fatal_witness :
    (execute ⟨false, false, false, false, false, true, "tk", "mint.test"⟩
        [⟨"t1", "alice", "S1", "pw", UsrStatus.unverified, none⟩] []
        "alice" "S1").fatal = true ∧
    (execute ⟨false, false, false, false, false, true, "tk", "mint.test"⟩
        [⟨"t1", "alice", "S1", "pw", UsrStatus.unverified, none⟩] []
        "alice" "S1").err = none ∧
    (execute ⟨false, false, false, false, false, true, "tk", "mint.test"⟩
        [⟨"t1", "alice", "S1", "pw", UsrStatus.unverified, none⟩] []
        "alice" "S1").httpStatus = none ∧
    (execute ⟨false, false, false, false, false, true, "tk", "mint.test"⟩
        [⟨"t1", "alice", "S1", "pw", UsrStatus.unverified, none⟩] []
        "alice" "S1").resp = none ∧
    (execute ⟨false, false, false, false, false, true, "tk", "mint.test"⟩
        [⟨"t1", "alice", "S1", "pw", UsrStatus.unverified, none⟩] []
        "alice" "S1").createdMintUser = false ∧
    (execute ⟨false, false, false, false, false, true, "tk", "mint.test"⟩
        [⟨"t1", "alice", "S1", "pw", UsrStatus.unverified, none⟩] []
        "alice" "S1").regCommitted = false ∧
    (execute ⟨false, false, false, false, false, true, "tk", "mint.test"⟩
        [⟨"t1", "alice", "S1", "pw", UsrStatus.unverified, none⟩] []
        "alice" "S1").mintCommitted = false ∧
    (execute ⟨false, false, false, false, false, true, "tk", "mint.test"⟩
        [⟨"t1", "alice", "S1", "pw", UsrStatus.unverified, none⟩] []
        "alice" "S1").finalReg =
      [⟨"t1", "alice", "S1", "pw", UsrStatus.unverified, none⟩] ∧
    (execute ⟨false, false, false, false, false, true, "tk", "mint.test"⟩
        [⟨"t1", "alice", "S1", "pw", UsrStatus.unverified, none⟩] []
        "alice" "S1").finalMint = [] :=
  mint_create_failure_fatal
    ⟨false, false, false, false, false, true, "tk", "mint.test"⟩
    [⟨"t1", "alice", "S1", "pw", UsrStatus.unverified, none⟩] []
    "alice" "S1"
    ⟨"t1", "alice", "S1", "pw", UsrStatus.unverified, none⟩
    rfl rfl rfl rfl (by decide) rfl rfl rfl

/-- Claim C4: for an unverified user with no mint token and no pre-existing
mint user, retrieval with the correct secret verifies the register user,
creates the mint user with the same username and password, stores the new
mint token on the register user, commits both transactions, and responds
HTTP 201 with the username at the mint identity and the stored register
password as credentials. -/
theorem retrieve_first_verification (env : SagaEnv)
    (regStore : List RegUser) (mintStore : List MintUser)
    (username secret : String) (u : RegUser)
    (h1 : env.loadRegFails = false) (h2 : env.saveRegFails = false)
    (h3 : env.loadMintFails = false) (h4 : env.createMintFails = false)
    (hfind : findReg regStore username = some u)
    (hu : u.username = username)
    (hsec : u.secret = secret)
    (hst : u.status = UsrStatus.unverified)
    (hmt : u.mintToken = none)
    (hmint : findMint mintStore username = none) :
    (execute env regStore mintStore username secret).httpStatus
      = some 201 ∧
    (execute env regStore mintStore username secret).err = none ∧
    (execute env regStore mintStore username secret).fatal = false ∧
    (execute env regStore mintStore username secret).createdMintUser
      = true ∧
    (execute env regStore mintStore username secret).regCommitted = true ∧
    (execute env regStore mintStore username secret).mintCommitted
      = true ∧
    (execute env regStore mintStore username secret).resp =
      some { user := { u with
                       status := UsrStatus.verified
                       mintToken := some env.freshMintToken }
             credentials := { address :=
                                username ++ "@" ++ env.mintIdentity
                              password := u.password } } ∧
    findReg (execute env regStore mintStore username secret).finalReg
        username =
      some { u with
             status := UsrStatus.verified
             mintToken := some env.freshMintToken } ∧
    findMint (execute env regStore mintStore username secret).finalMint
        username =
      some ⟨env.freshMintToken, username, u.password⟩ := by
  have hmintu : findMint mintStore u.username = none := by
    rw [hu]; exact hmint
  have hred : execute env regStore mintStore username secret =
      finishMint env regStore
        (saveReg regStore { u with status := UsrStatus.verified })
        mintStore
        (⟨env.freshMintToken, u.username, u.password⟩ :: mintStore)
        { u with status := UsrStatus.verified } env.freshMintToken
        true true false := by
    simp [execute, h1, h2, h3, h4, hfind, hsec, hst, mintPhase, hmt, hmintu]
  rw [hred]
  unfold finishMint
  rw [if_neg (by simp [h2])]
  have hfind1 : findReg
      (saveReg regStore { u with status := UsrStatus.verified }) username =
      some { u with status := UsrStatus.verified } :=
    findReg_saveReg regStore username u _ hfind rfl rfl
  have hfind2 : findReg
      (saveReg (saveReg regStore { u with status := UsrStatus.verified })
        { { u with status := UsrStatus.verified } with
          mintToken := some env.freshMintToken }) username =
      some { { u with status := UsrStatus.verified } with
             mintToken := some env.freshMintToken } :=
    findReg_saveReg _ username { u with status := UsrStatus.verified } _
      hfind1 rfl rfl
  refine ⟨rfl, rfl, rfl, rfl, rfl, rfl, ?_, ?_, ?_⟩
  · simp [mkResp, hu]
  · exact hfind2
  · unfold findMint
    rw [@List.find?_cons_of_pos MintUser (fun v => v.username == username)
      ⟨env.freshMintToken, u.username, u.password⟩ mintStore (by simp [hu])]
    rw [hu]

end endpoint

namespace model

theorem charDigit_digitChar (d : Nat) (hd : d < 10) :
    charDigit (digitChar d) = some d := by
  interval_cases d <;> decide

theorem digitChar_ne_sign (d : Nat) (hd : d < 10) :
    digitChar d ≠ '-' ∧ digitChar d ≠ '+' := by
  interval_cases d <;> exact ⟨by decide, by decide⟩

theorem charsToDigits_map_digitChar (ds : List Nat)
    (h : ∀ d ∈ ds, d < 10) :
    charsToDigits (ds.map digitChar) = some ds := by
  induction ds with
  | nil => rfl
  | cons d ds ih =>
    rw [List.map_cons]
    unfold charsToDigits
    rw [charDigit_digitChar d (h d (List.mem_cons_self d ds))]
    rw [ih (fun x hx => h x (List.mem_cons_of_mem d hx))]

theorem parseDecimal_natStrData (n : Nat) (hn : n ≠ 0) :
    parseDecimal (natStrData n) = some n := by
  unfold natStrData
  rw [if_neg hn]
  have hne : Nat.digits 10 n ≠ [] := Nat.digits_ne_nil_iff_ne_zero.mpr hn
  have hlt : ∀ d ∈ (Nat.digits 10 n).reverse, d < 10 := by
    intro d hd
    exact Nat.digits_lt_base (by norm_num) (List.mem_reverse.mp hd)
  unfold parseDecimal
  rw [if_neg (by simp [hne])]
  rw [charsToDigits_map_digitChar _ hlt]
  simp [Nat.ofDigits_digits]

theorem signedParse_natStrData (m : Nat) (hm : m ≠ 0) :
    signedParse (natStrData m) = some (m : Int) := by
  have hp : parseDecimal (natStrData m) = some m :=
    parseDecimal_natStrData m hm
  have hne : Nat.digits 10 m ≠ [] := Nat.digits_ne_nil_iff_ne_zero.mpr hm
  unfold natStrData at hp ⊢
  rw [if_neg hm] at hp ⊢
  obtain ⟨c, cs, hL⟩ :
      ∃ c cs, (Nat.digits 10 m).reverse.map digitChar = c :: cs := by
    cases h : (Nat.digits 10 m).reverse.map digitChar with
    | nil =>
      exfalso
      apply hne
      have hlen := congrArg List.length h
      simp at hlen
      exact hlen
    | cons c cs => exact ⟨c, cs, rfl⟩
  obtain ⟨d, hd10, hcd⟩ : ∃ d, d < 10 ∧ c = digitChar d := by
    have hmem : c ∈ (Nat.digits 10 m).reverse.map digitChar := by
      rw [hL]
      exact List.mem_cons_self c cs
    obtain ⟨d, hd, hcd⟩ := List.mem_map.mp hmem
    exact ⟨d, Nat.digits_lt_base (by norm_num) (List.mem_reverse.mp hd),
      hcd.symm⟩
  have h1 : ¬ (c = '-') := by
    rw [hcd]; exact (digitChar_ne_sign d hd10).1
  have h2 : ¬ (c = '+') := by
    rw [hcd]; exact (digitChar_ne_sign d hd10).2
  rw [hL] at hp ⊢
  simp only [signedParse]
  rw [if_neg h1, if_neg h2, hp]
  rfl

theorem bigIntSetString_bigIntString (n : Int) :
    bigIntSetString (bigIntString n) = some n := by
  rcases n with m | m
  · by_cases hm : m = 0
    · subst hm
      decide
    · have hnn : ¬ ((Int.ofNat m) < 0) :=
        Int.not_lt.mpr (Int.ofNat_zero_le m)
      unfold bigIntString bigIntSetString
      rw [if_neg hnn]
      show signedParse (natStrData (Int.ofNat m).natAbs) = some (Int.ofNat m)
      have habs : (Int.ofNat m).natAbs = m := rfl
      rw [habs]
      exact signedParse_natStrData m hm
  · unfold bigIntString bigIntSetString
    rw [if_pos (Int.negSucc_lt_zero m)]
    show signedParse ('-' :: natStrData (Int.negSucc m).natAbs) =
      some (Int.negSucc m)
    have habs : (Int.negSucc m).natAbs = m + 1 := rfl
    rw [habs]
    simp only [signedParse]
    rw [if_pos trivial]
    rw [parseDecimal_natStrData (m + 1) (Nat.succ_ne_zero m)]
    simp [Int.negSucc_eq]

/-- Claim C7: any Amount, of any magnitude, serialized by Value to its
base-10 decimal string and handed back to Scan — whether the store returns
it as a string or as a byte slice — parses to the numerically identical
Amount. -/
theorem amount_value_scan_roundtrip :
    ∀ n : Int,
      amountScan (SqlSrc.str (amountValue n)) = some n ∧
      amountScan (SqlSrc.bytes (amountValue n).data) = some n := by
  intro n
  constructor
  · exact bigIntSetString_bigIntString n
  · show bigIntSetString (String.mk (amountValue n).data) = some n
    exact bigIntSetString_bigIntString n

/-- Claim C10: OfStatus.Scan accepts every string and every byte slice
verbatim, enforcing nothing about the closed enumeration of offer
statuses, and errors exactly on source values of any other type. -/
theorem ofstatus_scan_permissive :
    (∀ s : String, ofStatusScan (SqlSrc.str s) = some s) ∧
    (∀ l : List Char, ofStatusScan (SqlSrc.bytes l) = some (String.mk l)) ∧
    (∀ i : Int, ofStatusScan (SqlSrc.int64 i) = none) ∧
    ofStatusScan SqlSrc.other = none :=
  ⟨fun _ => rfl, fun _ => rfl, fun _ => rfl, rfl⟩

end model

namespace endpoint

/-- Witness for C4 at a concrete first-time verification. -/
theorem retrieve_first_verification_witness :
    (execute ⟨false, false, false, false, false, false, "tk", "mint.test"⟩
        [⟨"t1", "alice", "S1", "pw", UsrStatus.unverified, none⟩] []
        "alice" "S1").httpStatus = some 201 ∧
    (execute ⟨false, false, false, false, false, false, "tk", "mint.test"⟩
        [⟨"t1", "alice", "S1", "pw", UsrStatus.unverified, none⟩] []
        "alice" "S1").err = none ∧
    (execute ⟨false, false, false, false, false, false, "tk", "mint.test"⟩
        [⟨"t1", "alice", "S1", "pw", UsrStatus.unverified, none⟩] []
        "alice" "S1").fatal = false ∧
    (execute ⟨false, false, false, false, false, false, "tk", "mint.test"⟩
        [⟨"t1", "alice", "S1", "pw", UsrStatus.unverified, none⟩] []
        "alice" "S1").createdMintUser = true ∧
    (execute ⟨false, false, false, false, false, false, "tk", "mint.test"⟩
        [⟨"t1", "alice", "S1", "pw", UsrStatus.unverified, none⟩] []
        "alice" "S1").regCommitted = true ∧
    (execute ⟨false, false, false, false, false, false, "tk", "mint.test"⟩
        [⟨"t1", "alice", "S1", "pw", UsrStatus.unverified, none⟩] []
        "alice" "S1").mintCommitted = true ∧
    (execute ⟨false, false, false, false, false, false, "tk", "mint.test"⟩
        [⟨"t1", "alice", "S1", "pw", UsrStatus.unverified, none⟩] []
        "alice" "S1").resp =
      some { user := ⟨"t1", "alice", "S1", "pw", UsrStatus.verified,
                      some "tk"⟩
             credentials := ⟨"alice" ++ "@" ++ "mint.test", "pw"⟩ } ∧
    findReg (execute
        ⟨false, false, false, false, false, false, "tk", "mint.test"⟩
        [⟨"t1", "alice", "S1", "pw", UsrStatus.unverified, none⟩] []
        "alice" "S1").finalReg "alice" =
      some (⟨"t1", "alice", "S1", "pw", UsrStatus.verified,
        some "tk"⟩ : RegUser) ∧
    findMint (execute
        ⟨false, false, false, false, false, false, "tk", "mint.test"⟩
        [⟨"t1", "alice", "S1", "pw", UsrStatus.unverified, none⟩] []
        "alice" "S1").finalMint "alice" =
      some ⟨"tk", "alice", "pw"⟩ :=
  retrieve_first_verification
    ⟨false, false, false, false, false, false, "tk", "mint.test"⟩
    [⟨"t1", "alice", "S1", "pw", UsrStatus.unverified, none⟩] []
    "alice" "S1"
    ⟨"t1", "alice", "S1", "pw", UsrStatus.unverified, none⟩
    rfl rfl rfl rfl (by decide) rfl rfl rfl rfl rfl

end endpoint
